import Mathlib

/-!
A shallow embedding of the evaluation core of a tree-walking Lox
interpreter (src/evaluator.rs, src/main.rs), with theorems checking the
specification claims against it.

Modelling conventions:
* `f64` is modelled by `ℚ`; `f64::EPSILON` is the rational `2 ^ (-52)`.
  NaN and infinities are not representable in the model.
* `HashMap<String, Value>` is modelled by an association list with
  insert-overwrites semantics.
* `Rc<RefCell<Environment>>` is modelled by a store (a list of frames)
  addressed by `Nat` indices; allocation appends at the end.
* The host function pointer inside `NativeFunction` is modelled by a
  Lean function `Unit → Value`.
* `println!` output is modelled by the list of printed `Value`s, in
  order (the textual formatting of `Display` is not modelled).
* Recursion of the evaluator and the `while` loop are modelled with an
  explicit fuel parameter; `none` means the fuel ran out, and every
  claim is stated for the runs in which the fuel sufficed.
-/

namespace Lox

/-- Modelled from the spec: token kinds produced by the tokenizer
(src/tokenizer.rs is not part of the provided sources); the evaluator
only inspects the kinds listed in its match arms, the remaining kinds
are carried so that the catch-all arms are inhabited. -/
inductive TokenType where
  | LeftParen | RightParen | LeftBrace | RightBrace
  | Comma | Dot | Semicolon
  | Minus | Plus | Star | Slash
  | Bang | BangEqual | Equal | EqualEqual
  | Greater | GreaterEqual | Less | LessEqual
  | And | Or
  | Identifier | StringLit | NumberLit
  | EOF | WhiteSpace
  deriving DecidableEq, Repr

/-- Modelled from the spec: a token carries its kind, lexeme text and
source line (the `literal` payload is irrelevant to evaluation and
omitted). -/
structure Token where
  token_type : TokenType
  lexeme : String
  line : Nat
  deriving DecidableEq, Repr

/-- Modelled from the spec: literal payloads of `Expr::Literal`
(src/parser.rs is not part of the provided sources). -/
inductive LiteralValue where
  | Boolean (b : Bool)
  | Number (n : ℚ)
  | StringLit (s : String)
  | Nil
  deriving DecidableEq, Repr

/-- Modelled from the spec: the expression AST consumed by the
evaluator. -/
inductive Expr where
  | Literal (l : LiteralValue)
  | Grouping (e : Expr)
  | Unary (op : Token) (e : Expr)
  | Binary (left : Expr) (op : Token) (right : Expr)
  | Variable (name : Token)
  | Assign (name : Token) (value : Expr)
  | Logical (left : Expr) (op : Token) (right : Expr)
  | Call (callee : Expr) (paren : Token) (arguments : List Expr)
  deriving Repr

/-- Modelled from the spec: the statement AST consumed by the
evaluator. -/
inductive Stmt where
  | Expression (e : Expr)
  | Print (e : Expr)
  | Var (name : Token) (initializer : Option Expr)
  | Block (statements : List Stmt)
  | If (condition : Expr) (then_branch : Stmt) (else_branch : Option Stmt)
  | While (condition : Expr) (body : Stmt)
  | Function (name : Token) (params : List Token) (body : List Stmt)
  | Return (keyword : Token) (value : Option Expr)
  deriving Repr

/-- Runtime values (src/evaluator.rs, `enum Value`).  The closure
environment of a `Function` is a store address. -/
inductive Value where
  | Number (n : ℚ)
  | StringV (s : String)
  | Boolean (b : Bool)
  | Nil
  | NativeFunction (f : Unit → Value)
  | Function (name : String) (params : List Token) (body : List Stmt) (closure : Nat)

/-- Runtime outcome tag (src/evaluator.rs, `enum RuntimeError`): a true
failure with message and line, or the non-local return signal. -/
inductive RuntimeError where
  | Error (message : String) (line : Nat)
  | Return (value : Value)

/-- One environment frame (src/evaluator.rs, `struct Environment`):
bindings plus an optional parent address. -/
structure Environment where
  values : List (String × Value)
  enclosing : Option Nat

/-- The heap of environment frames standing in for the
`Rc<RefCell<Environment>>` graph; addresses are list indices. -/
abbrev Store := List Environment

/-- Association-list lookup modelling `HashMap::get`. -/
def listGet (k : String) : List (String × Value) → Option Value
  | [] => none
  | (k₁, v₁) :: rest => if k₁ = k then some v₁ else listGet k rest

/-- Association-list insert modelling `HashMap::insert`: overwrite the
existing binding in place, otherwise append. -/
def listInsert (k : String) (v : Value) : List (String × Value) → List (String × Value)
  | [] => [(k, v)]
  | (k₁, v₁) :: rest =>
    if k₁ = k then (k, v) :: rest else (k₁, v₁) :: listInsert k v rest

/-- Association-list membership modelling `HashMap::contains_key`. -/
def listContains (k : String) (m : List (String × Value)) : Bool :=
  (listGet k m).isSome

/-- `Environment::new`. -/
def Environment.new : Environment := ⟨[], none⟩

/-- `Environment::new_with_enclosing`. -/
def Environment.new_with_enclosing (parent : Nat) : Environment := ⟨[], some parent⟩

/-- `Environment::define` on one frame: unconditional insert. -/
def Environment.define (e : Environment) (name : String) (v : Value) : Environment :=
  { e with values := listInsert name v e.values }

/-- `Environment::define` through the store: mutate the frame at
`addr` (a dangling address leaves the store unchanged; unreachable for
stores produced by the interpreter). -/
def storeDefine (st : Store) (addr : Nat) (name : String) (v : Value) : Store :=
  match st[addr]? with
  | none => st
  | some e => st.set addr (e.define name v)

/-- `Environment::get` (src/evaluator.rs lines 36-47): look up the
lexeme in the current frame, ascend to the parent on a miss, and fail
with the undefined-variable error at the token line on a global miss.
The fuel bounds the chain walk; `none` means it ran out (or the
address dangled). -/
def Environment.get : Nat → Store → Nat → Token → Option (Except RuntimeError Value)
  | 0, _, _, _ => none
  | fuel + 1, st, addr, name_token =>
    match st[addr]? with
    | none => none
    | some env =>
      match listGet name_token.lexeme env.values with
      | some v => some (.ok v)
      | none =>
        match env.enclosing with
        | some parent => Environment.get fuel st parent name_token
        | none =>
          some (.error (.Error ("Undefined variable \x27" ++ name_token.lexeme ++ "\x27")
            name_token.line))

/-- `Environment::assign` (src/evaluator.rs lines 49-61): update the
first frame of the chain that already contains the lexeme, returning
the updated store; fail with the undefined-variable error at the token
line when no frame has it. -/
def Environment.assign : Nat → Store → Nat → Token → Value → Option (Except RuntimeError Store)
  | 0, _, _, _, _ => none
  | fuel + 1, st, addr, name_token, value =>
    match st[addr]? with
    | none => none
    | some env =>
      if listContains name_token.lexeme env.values then
        some (.ok (st.set addr { env with values := listInsert name_token.lexeme value env.values }))
      else
        match env.enclosing with
        | some parent => Environment.assign fuel st parent name_token value
        | none =>
          some (.error (.Error ("Undefined variable \x27" ++ name_token.lexeme ++ "\x27")
            name_token.line))

/-- `is_number` (src/evaluator.rs line 111). -/
def is_number : Value → Bool
  | .Number _ => true
  | _ => false

/-- `is_string` (src/evaluator.rs line 122). -/
def is_string : Value → Bool
  | .StringV _ => true
  | _ => false

/-- `is_truthy` (src/evaluator.rs lines 363-369): `false` and `nil`
are falsey, everything else is truthy. -/
def is_truthy : Value → Bool
  | .Boolean b => b
  | .Nil => false
  | _ => true

/-- `f64::EPSILON` = 2⁻⁵² as a rational. -/
def f64EPSILON : ℚ := 1 / 2 ^ 52

/-- `compare_equality` (src/evaluator.rs lines 346-354): numbers within
epsilon, strings and booleans structurally, `Nil == Nil`, every other
pair — including two `Function`s or two `NativeFunction`s — `false`. -/
def compare_equality (left right : Value) : Except RuntimeError Bool :=
  match left, right with
  | .Number l, .Number r => .ok (decide (|l - r| < f64EPSILON))
  | .StringV l, .StringV r => .ok (decide (l = r))
  | .Boolean l, .Boolean r => .ok (decide (l = r))
  | .Nil, .Nil => .ok true
  | _, _ => .ok false

/-- `compare_values` (src/evaluator.rs lines 356-361): numeric
comparison, with the type error built at line 0. -/
def compare_values (left right : Value) (compare : ℚ → ℚ → Bool) : Except RuntimeError Value :=
  match left, right with
  | .Number l, .Number r => .ok (.Boolean (compare l r))
  | _, _ => .error (.Error "Operands must be numbers." 0)

/-- Interpreter state threaded through evaluation: the frame store and
the `println!` output so far. -/
structure InterpState where
  store : Store
  output : List Value

mutual

/-- `evaluate` (src/evaluator.rs lines 126-277), with explicit fuel and
state.  The pair result keeps the state also on the error path, since
Rust mutations are not rolled back by `?`. -/
def evaluate : Nat → Expr → Nat → InterpState → Option (Except RuntimeError Value × InterpState)
  | 0, _, _, _ => none
  | fuel + 1, expr, env, s =>
    match expr with
    | .Literal l =>
      some (.ok (match l with
        | .Boolean b => .Boolean b
        | .Number n => .Number n
        | .StringLit str => .StringV str
        | .Nil => .Nil), s)
    | .Grouping e => evaluate fuel e env s
    | .Unary op e =>
      match evaluate fuel e env s with
      | none => none
      | some (.error er, s₁) => some (.error er, s₁)
      | some (.ok right, s₁) =>
        match op.token_type with
        | .Minus =>
          match right with
          | .Number n => some (.ok (.Number (-n)), s₁)
          | _ => some (.error (.Error "Operand must be a number." op.line), s₁)
        | .Bang => some (.ok (.Boolean (!is_truthy right)), s₁)
        | _ => some (.ok (.StringV "Unimplemented"), s₁)
    | .Binary le op re =>
      match evaluate fuel le env s with
      | none => none
      | some (.error er, s₁) => some (.error er, s₁)
      | some (.ok left, s₁) =>
        match evaluate fuel re env s₁ with
        | none => none
        | some (.error er, s₂) => some (.error er, s₂)
        | some (.ok right, s₂) =>
          match op.token_type with
          | .Plus =>
            match left, right with
            | .Number l, .Number r => some (.ok (.Number (l + r)), s₂)
            | .StringV l, .StringV r => some (.ok (.StringV (l ++ r)), s₂)
            | _, _ =>
              some (.error (.Error "Operands must be two numbers or two strings." op.line), s₂)
          | .Minus =>
            match left, right with
            | .Number l, .Number r => some (.ok (.Number (l - r)), s₂)
            | _, _ => some (.error (.Error "Operands must be numbers." op.line), s₂)
          | .Star =>
            match left, right with
            | .Number l, .Number r => some (.ok (.Number (l * r)), s₂)
            | _, _ => some (.error (.Error "Operands must be numbers." op.line), s₂)
          | .Slash =>
            match left, right with
            | .Number l, .Number r =>
              if r = 0 then some (.error (.Error "Division by zero." op.line), s₂)
              else some (.ok (.Number (l / r)), s₂)
            | _, _ => some (.error (.Error "Operands must be numbers." op.line), s₂)
          | .Greater =>
            match compare_values left right (fun a b => decide (a > b)) with
            | .ok v => some (.ok v, s₂)
            | .error er => some (.error er, s₂)
          | .GreaterEqual =>
            match compare_values left right (fun a b => decide (a ≥ b)) with
            | .ok v => some (.ok v, s₂)
            | .error er => some (.error er, s₂)
          | .Less =>
            match compare_values left right (fun a b => decide (a < b)) with
            | .ok v => some (.ok v, s₂)
            | .error er => some (.error er, s₂)
          | .LessEqual =>
            match compare_values left right (fun a b => decide (a ≤ b)) with
            | .ok v => some (.ok v, s₂)
            | .error er => some (.error er, s₂)
          | .EqualEqual =>
            match compare_equality left right with
            | .ok b => some (.ok (.Boolean b), s₂)
            | .error er => some (.error er, s₂)
          | .BangEqual =>
            match compare_equality left right with
            | .ok b => some (.ok (.Boolean (!b)), s₂)
            | .error er => some (.error er, s₂)
          | _ => some (.ok (.StringV "Unimplemented"), s₂)
    | .Variable name =>
      match Environment.get fuel s.store env name with
      | none => none
      | some (.ok v) => some (.ok v, s)
      | some (.error er) =>
        some (.error (match er with
          | .Error message _ => .Error message name.line
          | .Return v => .Return v), s)
    | .Assign name value_expr =>
      match evaluate fuel value_expr env s with
      | none => none
      | some (.error er, s₁) => some (.error er, s₁)
      | some (.ok value, s₁) =>
        match Environment.assign fuel s₁.store env name value with
        | none => none
        | some (.ok st₁) => some (.ok value, { s₁ with store := st₁ })
        | some (.error er) => some (.error er, s₁)
    | .Logical le op re =>
      match evaluate fuel le env s with
      | none => none
      | some (.error er, s₁) => some (.error er, s₁)
      | some (.ok left_val, s₁) =>
        if op.token_type = .Or then
          if is_truthy left_val then some (.ok left_val, s₁)
          else evaluate fuel re env s₁
        else if op.token_type = .And then
          if !is_truthy left_val then some (.ok left_val, s₁)
          else evaluate fuel re env s₁
        else evaluate fuel re env s₁
    | .Call callee paren arguments =>
      match evaluate fuel callee env s with
      | none => none
      | some (.error er, s₁) => some (.error er, s₁)
      | some (.ok callee_val, s₁) =>
        match callee_val with
        | .NativeFunction func =>
          if arguments.isEmpty then some (.ok (func ()), s₁)
          else some (.error (.Error "Native function expects 0 arguments." paren.line), s₁)
        | .Function _ params body closure =>
          if arguments.length ≠ params.length then
            some (.error (.Error ("Expected " ++ toString params.length ++
              " arguments but got " ++ toString arguments.length ++ ".") paren.line), s₁)
          else
            let function_env := s₁.store.length
            let s₂ : InterpState :=
              { s₁ with store := s₁.store ++ [Environment.new_with_enclosing closure] }
            match bind_params fuel params arguments env function_env s₂ with
            | none => none
            | some (.error er, s₃) => some (.error er, s₃)
            | some (.ok _, s₃) =>
              match execute_block fuel body function_env s₃ with
              | none => none
              | some (.ok _, s₄) => some (.ok .Nil, s₄)
              | some (.error (.Return value), s₄) => some (.ok value, s₄)
              | some (.error (.Error m ln), s₄) => some (.error (.Error m ln), s₄)
        | _ => some (.error (.Error "Can only call functions." paren.line), s₁)
termination_by structural fuel => fuel

/-- The parameter-binding loop of the `Function` call case
(src/evaluator.rs lines 259-262): arguments are evaluated in the
caller environment and defined into the fresh function frame; `zip`
truncation mirrors `params.iter().zip(arguments)`. -/
def bind_params : Nat → List Token → List Expr → Nat → Nat → InterpState → Option (Except RuntimeError Unit × InterpState)
  | 0, _, _, _, _, _ => none
  | _ + 1, [], _, _, _, s => some (.ok (), s)
  | _ + 1, _ :: _, [], _, _, s => some (.ok (), s)
  | fuel + 1, param :: params, arg :: args, env, function_env, s =>
    match evaluate fuel arg env s with
    | none => none
    | some (.error er, s₁) => some (.error er, s₁)
    | some (.ok value, s₁) =>
      bind_params fuel params args env function_env
        { s₁ with store := storeDefine s₁.store function_env param.lexeme value }
termination_by structural fuel _ _ _ _ _ => fuel

/-- `execute_stmt` (src/evaluator.rs lines 278-337), with explicit fuel
and state. -/
def execute_stmt : Nat → Stmt → Bool → Nat → InterpState → Option (Except RuntimeError Unit × InterpState)
  | 0, _, _, _, _ => none
  | fuel + 1, stmt, print_expr_result, env, s =>
    match stmt with
    | .Print e =>
      match evaluate fuel e env s with
      | none => none
      | some (.error er, s₁) => some (.error er, s₁)
      | some (.ok value, s₁) => some (.ok (), { s₁ with output := s₁.output ++ [value] })
    | .Expression e =>
      match evaluate fuel e env s with
      | none => none
      | some (.error er, s₁) => some (.error er, s₁)
      | some (.ok value, s₁) =>
        if print_expr_result then some (.ok (), { s₁ with output := s₁.output ++ [value] })
        else some (.ok (), s₁)
    | .Var name initializer =>
      match initializer with
      | some e =>
        match evaluate fuel e env s with
        | none => none
        | some (.error er, s₁) => some (.error er, s₁)
        | some (.ok value, s₁) =>
          some (.ok (), { s₁ with store := storeDefine s₁.store env name.lexeme value })
      | none => some (.ok (), { s with store := storeDefine s.store env name.lexeme .Nil })
    | .Block statements =>
      let block_env := s.store.length
      execute_block fuel statements block_env
        { s with store := s.store ++ [Environment.new_with_enclosing env] }
    | .If condition then_branch else_branch =>
      match evaluate fuel condition env s with
      | none => none
      | some (.error er, s₁) => some (.error er, s₁)
      | some (.ok condition_value, s₁) =>
        if is_truthy condition_value then
          execute_stmt fuel then_branch print_expr_result env s₁
        else
          match else_branch with
          | some else_stmt => execute_stmt fuel else_stmt print_expr_result env s₁
          | none => some (.ok (), s₁)
    | .While condition body =>
      match evaluate fuel condition env s with
      | none => none
      | some (.error er, s₁) => some (.error er, s₁)
      | some (.ok condition_value, s₁) =>
        if is_truthy condition_value then
          match execute_stmt fuel body print_expr_result env s₁ with
          | none => none
          | some (.error er, s₂) => some (.error er, s₂)
          | some (.ok _, s₂) => execute_stmt fuel (.While condition body) print_expr_result env s₂
        else some (.ok (), s₁)
    | .Function name params body =>
      let function : Value := .Function name.lexeme params body env
      some (.ok (), { s with store := storeDefine s.store env name.lexeme function })
    | .Return _ value =>
      match value with
      | some e =>
        match evaluate fuel e env s with
        | none => none
        | some (.error er, s₁) => some (.error er, s₁)
        | some (.ok return_value, s₁) => some (.error (.Return return_value), s₁)
      | none => some (.error (.Return .Nil), s)
termination_by structural fuel _ _ _ _ => fuel

/-- `execute_block` (src/evaluator.rs lines 339-344): run the
statements in order against the given frame, always with the
expression-echo flag false. -/
def execute_block : Nat → List Stmt → Nat → InterpState → Option (Except RuntimeError Unit × InterpState)
  | 0, _, _, _ => none
  | _ + 1, [], _, s => some (.ok (), s)
  | fuel + 1, statement :: rest, env, s =>
    match execute_stmt fuel statement false env s with
    | none => none
    | some (.error er, s₁) => some (.error er, s₁)
    | some (.ok _, s₁) => execute_block fuel rest env s₁
termination_by structural fuel _ _ _ => fuel

end

/-- The stderr line produced by the driver for a runtime failure
(src/main.rs: `eprintln!` of the message followed by ` [line N]`). -/
def reportLine (message : String) (line : Nat) : String :=
  message ++ " [line " ++ toString line ++ "]"

/-- The name is bound in no frame of the environment chain that starts
at `addr` (the chain ends at a frame with no parent). -/
inductive UnboundIn (st : Store) (name : String) : Nat → Prop where
  | root (addr : Nat) (env : Environment) :
      st[addr]? = some env → listContains name env.values = false →
      env.enclosing = none → UnboundIn st name addr
  | step (addr : Nat) (env : Environment) (parent : Nat) :
      st[addr]? = some env → listContains name env.values = false →
      env.enclosing = some parent → UnboundIn st name parent →
      UnboundIn st name addr

/-- `target` is the first (innermost) frame of the chain starting at
`addr` whose bindings contain the name. -/
inductive FirstContaining (st : Store) (name : String) : Nat → Nat → Prop where
  | here (addr : Nat) (env : Environment) :
      st[addr]? = some env → listContains name env.values = true →
      FirstContaining st name addr addr
  | up (addr : Nat) (env : Environment) (parent target : Nat) :
      st[addr]? = some env → listContains name env.values = false →
      env.enclosing = some parent → FirstContaining st name parent target →
      FirstContaining st name addr target

/-- Discriminant of the `Value` variant, to state cross-variant facts. -/
def variantIndex : Value → Nat
  | .Number _ => 0
  | .StringV _ => 1
  | .Boolean _ => 2
  | .Nil => 3
  | .NativeFunction _ => 4
  | .Function _ _ _ _ => 5

/-- The two callable variants (`Function`, `NativeFunction`). -/
def isCallable : Value → Bool
  | .NativeFunction _ => true
  | .Function _ _ _ _ => true
  | _ => false

/-! ## Helper lemmas -/

theorem listGet_insert_ne (k name : String) (v : Value) (m : List (String × Value))
    (h : k ≠ name) : listGet k (listInsert name v m) = listGet k m := by
  induction m with
  | nil => simp [listInsert, listGet, Ne.symm h]
  | cons hd tl ih =>
    obtain ⟨k₁, v₁⟩ := hd
    simp only [listInsert]
    by_cases hk : k₁ = name
    · subst hk
      simp only [if_pos rfl, listGet, if_neg (Ne.symm h)]
    · simp only [if_neg hk, listGet]
      by_cases hk₂ : k₁ = k
      · rw [if_pos hk₂, if_pos hk₂]
      · rw [if_neg hk₂, if_neg hk₂, ih]

/-- A chain on which the name is everywhere unbound makes
`Environment::get` fail with the undefined-variable error at the token
line, whenever the fuel suffices. -/
theorem get_unbound (st : Store) (tok : Token) :
    ∀ (addr fuel : Nat) (r : Except RuntimeError Value),
      UnboundIn st tok.lexeme addr →
      Environment.get fuel st addr tok = some r →
      r = .error (.Error ("Undefined variable \x27" ++ tok.lexeme ++ "\x27") tok.line) := by
  intro addr fuel r hub
  induction hub generalizing fuel with
  | root a env ha hc he =>
    intro hget
    match fuel with
    | 0 => simp [Environment.get] at hget
    | fuel + 1 =>
      have hnone : listGet tok.lexeme env.values = none := by
        cases hg : listGet tok.lexeme env.values with
        | none => rfl
        | some v => rw [listContains, hg] at hc; simp at hc
      rw [Environment.get] at hget
      simp only [ha, hnone, he, Option.some.injEq] at hget
      exact hget.symm
  | step a env parent ha hc he _ ih =>
    intro hget
    match fuel with
    | 0 => simp [Environment.get] at hget
    | fuel + 1 =>
      have hnone : listGet tok.lexeme env.values = none := by
        cases hg : listGet tok.lexeme env.values with
        | none => rfl
        | some v => rw [listContains, hg] at hc; simp at hc
      rw [Environment.get] at hget
      simp only [ha, hnone, he] at hget
      exact ih fuel hget

/-! ## Claim theorems -/

/-- C1: the claim says every comparison type error carries the
comparison operator token line; `compare_values` builds the error with
line 0 instead, so `1 < true` with the `<` token on line 1 reports
line 0.  This theorem records the behaviour of the code at the failing
input. -/
theorem comparison_type_error_carries_line_zero :
    evaluate 3 (.Binary (.Literal (.Number 1)) ⟨.Less, "<", 1⟩ (.Literal (.Boolean true))) 0
        ⟨[Environment.new], []⟩
      = some (.error (.Error "Operands must be numbers." 0), ⟨[Environment.new], []⟩)
    ∧ reportLine "Operands must be numbers." 0 = "Operands must be numbers. [line 0]" :=
  ⟨rfl, rfl⟩

/-- C2 counterexample: the claim says `v == v` evaluates to true for
every non-NaN value; a `Function` value is non-NaN, yet
`compare_equality` maps the pair of identical `Function` values to
`false` through its catch-all arm. -/
theorem compare_equality_function_self_false :
    compare_equality (.Function "f" [] [] 0) (.Function "f" [] [] 0) = .ok false := rfl

/-- C2 (amended): equality is same-variant structural equality on the
`Number`, `String`, `Boolean` and `Nil` variants — numbers within
`f64::EPSILON`, `Nil == Nil` true, cross-variant pairs false — and
`v == v` holds for every non-NaN value of those four variants, while
`Function` and `NativeFunction` values compare false against
everything, themselves included. -/
theorem compare_equality_spec :
    (∀ l r : ℚ, compare_equality (.Number l) (.Number r) = .ok (decide (|l - r| < f64EPSILON)))
    ∧ (∀ l r : String, compare_equality (.StringV l) (.StringV r) = .ok (decide (l = r)))
    ∧ (∀ l r : Bool, compare_equality (.Boolean l) (.Boolean r) = .ok (decide (l = r)))
    ∧ compare_equality .Nil .Nil = .ok true
    ∧ (∀ v w : Value, variantIndex v ≠ variantIndex w → compare_equality v w = .ok false)
    ∧ (∀ v : Value, isCallable v = false → compare_equality v v = .ok true)
    ∧ (∀ f g, compare_equality (.NativeFunction f) (.NativeFunction g) = .ok false)
    ∧ (∀ n p b c n₁ p₁ b₁ c₁,
        compare_equality (.Function n p b c) (.Function n₁ p₁ b₁ c₁) = .ok false) := by
  refine ⟨fun l r => rfl, fun l r => rfl, fun l r => rfl, rfl, ?_, ?_, fun f g => rfl,
    fun n p b c n₁ p₁ b₁ c₁ => rfl⟩
  · intro v w h
    cases v <;> cases w <;> first
      | (exfalso; exact h rfl)
      | rfl
  · intro v h
    cases v with
    | Number n =>
      have h0 : |n - n| < f64EPSILON := by
        rw [sub_self, abs_zero, f64EPSILON]
        norm_num
      simp only [compare_equality, decide_eq_true h0]
    | StringV s => simp [compare_equality]
    | Boolean b => simp [compare_equality]
    | Nil => rfl
    | NativeFunction f => simp [isCallable] at h
    | Function n p b c => simp [isCallable] at h

/-- C2 witness: the amended equality facts applied at concrete
values. -/
theorem compare_equality_spec_witness :
    compare_equality (.Number 0) .Nil = .ok false
    ∧ compare_equality .Nil .Nil = .ok true := by
  refine ⟨compare_equality_spec.2.2.2.2.1 (.Number 0) .Nil (by decide), ?_⟩
  exact compare_equality_spec.2.2.2.2.2.1 .Nil (by decide)

/-- C4 counterexample: the claim says the message carries a trailing
period; the code formats `Undefined variable \x27x\x27` without one, and the
driver line for `print x;` is `Undefined variable \x27x\x27 [line 1]`, not
`Undefined variable \x27x\x27. [line 1]`. -/
theorem undefined_variable_message_without_period :
    evaluate 2 (.Variable ⟨.Identifier, "x", 1⟩) 0 ⟨[Environment.new], []⟩
      = some (.error (.Error "Undefined variable \x27x\x27" 1), ⟨[Environment.new], []⟩)
    ∧ "Undefined variable \x27x\x27" ≠ "Undefined variable \x27x\x27."
    ∧ reportLine "Undefined variable \x27x\x27" 1 ≠ "Undefined variable \x27x\x27. [line 1]" :=
  ⟨rfl, by decide, by decide⟩

/-- C4 (amended): evaluating a `Variable` whose name is bound in no
frame of the chain fails with the message `Undefined variable \x27x\x27` —
no trailing period — at the referencing token line, so `print x;`
reports `Undefined variable \x27x\x27 [line 1]`. -/
theorem undefined_variable_error_spec :
    (∀ (fuel : Nat) (st : Store) (out : List Value) (env : Nat) (tok : Token)
        (res : Except RuntimeError Value × InterpState),
      UnboundIn st tok.lexeme env →
      evaluate (fuel + 1) (.Variable tok) env ⟨st, out⟩ = some res →
      res = (.error (.Error ("Undefined variable \x27" ++ tok.lexeme ++ "\x27") tok.line),
        ⟨st, out⟩))
    ∧ reportLine "Undefined variable \x27x\x27" 1 = "Undefined variable \x27x\x27 [line 1]" := by
  refine ⟨?_, rfl⟩
  intro fuel st out env tok res hub hev
  rw [evaluate] at hev
  cases hget : Environment.get fuel st env tok with
  | none => rw [hget] at hev; simp at hev
  | some r =>
    have hr := get_unbound st tok env fuel r hub hget
    subst hr
    rw [hget] at hev
    simp only [Option.some.injEq] at hev
    exact hev.symm

/-- C4 witness: the amended statement applied to `print x;` against the
empty global frame. -/
theorem undefined_variable_error_spec_witness :
    ((Except.error (RuntimeError.Error "Undefined variable \x27x\x27" 1),
        (⟨[Environment.new], []⟩ : InterpState)) : Except RuntimeError Value × InterpState)
      = (.error (.Error ("Undefined variable \x27" ++ "x" ++ "\x27") 1), ⟨[Environment.new], []⟩) := by
  exact undefined_variable_error_spec.1 1 [Environment.new] [] 0 ⟨.Identifier, "x", 1⟩ _
    (.root 0 Environment.new rfl rfl rfl) rfl

/-- C5 counterexample: the claim says a wrong-arity call of the native
`clock` reports `Expected 0 arguments but got 1.`; the code reports
`Native function expects 0 arguments.` instead. -/
theorem native_call_arity_message_differs :
    evaluate 3 (.Call (.Variable ⟨.Identifier, "clock", 7⟩) ⟨.RightParen, ")", 7⟩
        [.Literal .Nil]) 0
        ⟨[⟨[("clock", .NativeFunction (fun _ => .Number 0))], none⟩], []⟩
      = some (.error (.Error "Native function expects 0 arguments." 7),
        ⟨[⟨[("clock", .NativeFunction (fun _ => .Number 0))], none⟩], []⟩)
    ∧ "Native function expects 0 arguments." ≠ "Expected 0 arguments but got 1." :=
  ⟨rfl, by decide⟩

/-- C5 (amended): a call of a `Function` value whose argument count M
differs from the parameter count N fails with `Expected N arguments
but got M.` at the closing-paren line without executing the body (the
resulting state is the state right after the callee evaluated); a call
of a native function with a nonempty argument list fails with `Native
function expects 0 arguments.` at the closing-paren line. -/
theorem call_arity_error_spec :
    (∀ (fuel : Nat) (callee : Expr) (paren : Token) (args : List Expr) (env : Nat)
        (s s₁ : InterpState) (nm : String) (params : List Token) (body : List Stmt)
        (closure : Nat),
      evaluate fuel callee env s = some (.ok (.Function nm params body closure), s₁) →
      args.length ≠ params.length →
      evaluate (fuel + 1) (.Call callee paren args) env s =
        some (.error (.Error ("Expected " ++ toString params.length ++ " arguments but got " ++
          toString args.length ++ ".") paren.line), s₁))
    ∧ (∀ (fuel : Nat) (callee : Expr) (paren : Token) (args : List Expr) (env : Nat)
        (s s₁ : InterpState) (f : Unit → Value),
      evaluate fuel callee env s = some (.ok (.NativeFunction f), s₁) →
      args ≠ [] →
      evaluate (fuel + 1) (.Call callee paren args) env s =
        some (.error (.Error "Native function expects 0 arguments." paren.line), s₁)) := by
  constructor
  · intro fuel callee paren args env s s₁ nm params body closure h₁ h₂
    rw [evaluate]
    simp only [h₁, if_pos h₂]
  · intro fuel callee paren args env s s₁ f h₁ h₂
    rw [evaluate]
    cases args with
    | nil => exact absurd rfl h₂
    | cons a as => simp [h₁]

/-- C5 witness: a two-parameter function called with no arguments, and
`clock` called with one argument. -/
theorem call_arity_error_spec_witness :
    evaluate 3 (.Call (.Variable ⟨.Identifier, "f", 2⟩) ⟨.RightParen, ")", 2⟩ []) 0
        ⟨[⟨[("f", .Function "f" [⟨.Identifier, "a", 1⟩, ⟨.Identifier, "b", 1⟩] [] 0)], none⟩], []⟩
      = some (.error (.Error ("Expected " ++ toString (2 : Nat) ++ " arguments but got " ++
          toString (0 : Nat) ++ ".") 2),
        ⟨[⟨[("f", .Function "f" [⟨.Identifier, "a", 1⟩, ⟨.Identifier, "b", 1⟩] [] 0)], none⟩], []⟩)
    ∧ evaluate 3 (.Call (.Variable ⟨.Identifier, "clock", 7⟩) ⟨.RightParen, ")", 7⟩
        [.Literal .Nil]) 0
        ⟨[⟨[("clock", .NativeFunction (fun _ => .Number 0))], none⟩], []⟩
      = some (.error (.Error "Native function expects 0 arguments." 7),
        ⟨[⟨[("clock", .NativeFunction (fun _ => .Number 0))], none⟩], []⟩) := by
  constructor
  · exact call_arity_error_spec.1 2 (.Variable ⟨.Identifier, "f", 2⟩) ⟨.RightParen, ")", 2⟩ []
      0 _ _ "f" [⟨.Identifier, "a", 1⟩, ⟨.Identifier, "b", 1⟩] [] 0 rfl (by decide)
  · exact call_arity_error_spec.2 2 (.Variable ⟨.Identifier, "clock", 7⟩) ⟨.RightParen, ")", 7⟩
      [.Literal .Nil] 0 _ _ (fun _ => .Number 0) rfl (by simp)

/-- C6: for `or`, the right operand is evaluated iff the left value is
falsey and a truthy left value is returned unchanged; for `and`, the
right operand is evaluated iff the left value is truthy and a falsey
left value is returned unchanged.  The short-circuit conclusions hold
for an arbitrary right operand, which expresses that it is not
evaluated. -/
theorem logical_short_circuit_spec :
    ∀ (fuel : Nat) (le re : Expr) (op : Token) (env : Nat) (s s₁ : InterpState) (v : Value),
      evaluate fuel le env s = some (.ok v, s₁) →
      ((op.token_type = .Or → is_truthy v = true →
          evaluate (fuel + 1) (.Logical le op re) env s = some (.ok v, s₁))
        ∧ (op.token_type = .Or → is_truthy v = false →
          evaluate (fuel + 1) (.Logical le op re) env s = evaluate fuel re env s₁)
        ∧ (op.token_type = .And → is_truthy v = false →
          evaluate (fuel + 1) (.Logical le op re) env s = some (.ok v, s₁))
        ∧ (op.token_type = .And → is_truthy v = true →
          evaluate (fuel + 1) (.Logical le op re) env s = evaluate fuel re env s₁)) := by
  intro fuel le re op env s s₁ v h₁
  refine ⟨?_, ?_, ?_, ?_⟩ <;> intro hop htr <;> rw [evaluate] <;> simp [h₁, hop, htr]

/-- C6 witness: `nil or "fallback"` evaluates the right operand, and a
truthy non-Boolean left operand is returned unchanged. -/
theorem logical_short_circuit_spec_witness :
    evaluate 2 (.Logical (.Literal .Nil) ⟨.Or, "or", 1⟩ (.Literal (.StringLit "fallback"))) 0
        ⟨[Environment.new], []⟩
      = evaluate 1 (.Literal (.StringLit "fallback")) 0 ⟨[Environment.new], []⟩
    ∧ evaluate 2 (.Logical (.Literal (.StringLit "first")) ⟨.Or, "or", 1⟩
        (.Literal (.StringLit "second"))) 0 ⟨[Environment.new], []⟩
      = some (.ok (.StringV "first"), ⟨[Environment.new], []⟩) := by
  constructor
  · exact (logical_short_circuit_spec 1 (.Literal .Nil) (.Literal (.StringLit "fallback"))
      ⟨.Or, "or", 1⟩ 0 _ _ .Nil rfl).2.1 rfl rfl
  · exact (logical_short_circuit_spec 1 (.Literal (.StringLit "first"))
      (.Literal (.StringLit "second")) ⟨.Or, "or", 1⟩ 0 _ _ (.StringV "first") rfl).1 rfl rfl

/-- C7: a `+` on two numbers is their sum, on two strings their
concatenation, and on every other pair the `Operands must be two
numbers or two strings.` error at the operator token line, with no
coercion. -/
theorem binary_plus_spec :
    ∀ (fuel : Nat) (le re : Expr) (op : Token) (env : Nat) (s s₁ s₂ : InterpState)
      (lv rv : Value),
      op.token_type = .Plus →
      evaluate fuel le env s = some (.ok lv, s₁) →
      evaluate fuel re env s₁ = some (.ok rv, s₂) →
      ((∀ a b : ℚ, lv = .Number a → rv = .Number b →
          evaluate (fuel + 1) (.Binary le op re) env s = some (.ok (.Number (a + b)), s₂))
        ∧ (∀ a b : String, lv = .StringV a → rv = .StringV b →
          evaluate (fuel + 1) (.Binary le op re) env s = some (.ok (.StringV (a ++ b)), s₂))
        ∧ ((is_number lv && is_number rv) = false →
          (is_string lv && is_string rv) = false →
          evaluate (fuel + 1) (.Binary le op re) env s =
            some (.error (.Error "Operands must be two numbers or two strings." op.line), s₂))) := by
  intro fuel le re op env s s₁ s₂ lv rv hop h₁ h₂
  refine ⟨?_, ?_, ?_⟩
  · intro a b ha hb
    subst ha hb
    rw [evaluate]
    simp [h₁, h₂, hop]
  · intro a b ha hb
    subst ha hb
    rw [evaluate]
    simp [h₁, h₂, hop]
  · intro hn hs
    rw [evaluate]
    simp only [h₁, h₂, hop]
    cases lv <;> cases rv <;> simp_all [is_number, is_string]

/-- C7 witness: `1 + 2`, `"hi " + "there"` and `1 + "two"`. -/
theorem binary_plus_spec_witness :
    evaluate 2 (.Binary (.Literal (.Number 1)) ⟨.Plus, "+", 1⟩ (.Literal (.Number 2))) 0
        ⟨[Environment.new], []⟩
      = some (.ok (.Number ((1 : ℚ) + 2)), ⟨[Environment.new], []⟩)
    ∧ evaluate 2 (.Binary (.Literal (.StringLit "hi ")) ⟨.Plus, "+", 1⟩
        (.Literal (.StringLit "there"))) 0 ⟨[Environment.new], []⟩
      = some (.ok (.StringV ("hi " ++ "there")), ⟨[Environment.new], []⟩)
    ∧ evaluate 2 (.Binary (.Literal (.Number 1)) ⟨.Plus, "+", 1⟩
        (.Literal (.StringLit "two"))) 0 ⟨[Environment.new], []⟩
      = some (.error (.Error "Operands must be two numbers or two strings." 1),
        ⟨[Environment.new], []⟩) := by
  refine ⟨?_, ?_, ?_⟩
  · exact (binary_plus_spec 1 (.Literal (.Number 1)) (.Literal (.Number 2)) ⟨.Plus, "+", 1⟩
      0 _ _ _ (.Number 1) (.Number 2) rfl rfl rfl).1 1 2 rfl rfl
  · exact (binary_plus_spec 1 (.Literal (.StringLit "hi ")) (.Literal (.StringLit "there"))
      ⟨.Plus, "+", 1⟩ 0 _ _ _ (.StringV "hi ") (.StringV "there") rfl rfl rfl).2.1
      "hi " "there" rfl rfl
  · exact (binary_plus_spec 1 (.Literal (.Number 1)) (.Literal (.StringLit "two"))
      ⟨.Plus, "+", 1⟩ 0 _ _ _ (.Number 1) (.StringV "two") rfl rfl rfl).2.2 rfl rfl

/-- C9: a `Unary` whose operator is neither `-` nor `!`, and a `Binary`
whose operator is none of the ten arithmetic, comparison and equality
kinds, evaluate their operands and then return `Ok` with the string
value `Unimplemented` rather than failing. -/
theorem unimplemented_operator_spec :
    (∀ (fuel : Nat) (op : Token) (e : Expr) (env : Nat) (s s₁ : InterpState) (v : Value),
      op.token_type ≠ .Minus → op.token_type ≠ .Bang →
      evaluate fuel e env s = some (.ok v, s₁) →
      evaluate (fuel + 1) (.Unary op e) env s = some (.ok (.StringV "Unimplemented"), s₁))
    ∧ (∀ (fuel : Nat) (le re : Expr) (op : Token) (env : Nat) (s s₁ s₂ : InterpState)
        (lv rv : Value),
      op.token_type ∉ ([.Plus, .Minus, .Star, .Slash, .Greater, .GreaterEqual, .Less,
        .LessEqual, .EqualEqual, .BangEqual] : List TokenType) →
      evaluate fuel le env s = some (.ok lv, s₁) →
      evaluate fuel re env s₁ = some (.ok rv, s₂) →
      evaluate (fuel + 1) (.Binary le op re) env s = some (.ok (.StringV "Unimplemented"), s₂)) := by
  constructor
  · intro fuel op e env s s₁ v hm hb h₁
    rw [evaluate]
    simp only [h₁]
  · intro fuel le re op env s s₁ s₂ lv rv hmem h₁ h₂
    simp only [List.mem_cons, List.not_mem_nil, or_false, not_or] at hmem
    obtain ⟨hm₁, hm₂, hm₃, hm₄, hm₅, hm₆, hm₇, hm₈, hm₉, hm₁₀⟩ := hmem
    rw [evaluate]
    simp only [h₁, h₂]

/-- C9 witness: a comma token as a unary and as a binary operator. -/
theorem unimplemented_operator_spec_witness :
    evaluate 2 (.Unary ⟨.Comma, ",", 1⟩ (.Literal (.Number 1))) 0 ⟨[Environment.new], []⟩
      = some (.ok (.StringV "Unimplemented"), ⟨[Environment.new], []⟩)
    ∧ evaluate 2 (.Binary (.Literal (.Number 1)) ⟨.Comma, ",", 1⟩ (.Literal (.Number 2))) 0
        ⟨[Environment.new], []⟩
      = some (.ok (.StringV "Unimplemented"), ⟨[Environment.new], []⟩) := by
  constructor
  · exact unimplemented_operator_spec.1 1 ⟨.Comma, ",", 1⟩ (.Literal (.Number 1)) 0 _ _
      (.Number 1) (by decide) (by decide) rfl
  · exact unimplemented_operator_spec.2 1 (.Literal (.Number 1)) (.Literal (.Number 2))
      ⟨.Comma, ",", 1⟩ 0 _ _ _ (.Number 1) (.Number 2) (by decide) rfl rfl

/-- C3: once the callee evaluated to a `Function` value, the arity
check passed and the parameters were bound, the call result is
determined by the body run: a `Return(value)` signal makes the call
yield exactly `value` and does not propagate past the `Call`, a normal
completion yields `Nil`, and a runtime `Error` propagates out
unchanged (with the state the body run left behind). -/
theorem call_return_spec :
    ∀ (fuel : Nat) (callee : Expr) (paren : Token) (args : List Expr) (env : Nat)
      (s s₁ s₃ : InterpState) (nm : String) (params : List Token) (body : List Stmt)
      (closure : Nat),
      evaluate fuel callee env s = some (.ok (.Function nm params body closure), s₁) →
      args.length = params.length →
      bind_params fuel params args env s₁.store.length
        { s₁ with store := s₁.store ++ [Environment.new_with_enclosing closure] }
        = some (.ok (), s₃) →
      ((∀ s₄ : InterpState,
          execute_block fuel body s₁.store.length s₃ = some (.ok (), s₄) →
          evaluate (fuel + 1) (.Call callee paren args) env s = some (.ok .Nil, s₄))
        ∧ (∀ (v : Value) (s₄ : InterpState),
          execute_block fuel body s₁.store.length s₃ = some (.error (.Return v), s₄) →
          evaluate (fuel + 1) (.Call callee paren args) env s = some (.ok v, s₄))
        ∧ (∀ (m : String) (ln : Nat) (s₄ : InterpState),
          execute_block fuel body s₁.store.length s₃ = some (.error (.Error m ln), s₄) →
          evaluate (fuel + 1) (.Call callee paren args) env s =
            some (.error (.Error m ln), s₄))) := by
  intro fuel callee paren args env s s₁ s₃ nm params body closure h₁ h₂ h₃
  refine ⟨?_, ?_, ?_⟩
  · intro s₄ h₄
    rw [evaluate]
    simp [h₁, h₂, h₃, h₄]
  · intro v s₄ h₄
    rw [evaluate]
    simp [h₁, h₂, h₃, h₄]
  · intro m ln s₄ h₄
    rw [evaluate]
    simp [h₁, h₂, h₃, h₄]

/-- C3 witness: calling a zero-parameter function whose body is
`return 42;` yields 42, through the `Return` signal caught at the
call. -/
theorem call_return_spec_witness :
    evaluate 5 (.Call (.Variable ⟨.Identifier, "f", 2⟩) ⟨.RightParen, ")", 2⟩ []) 0
        ⟨[⟨[("f", .Function "f" []
          [.Return ⟨.Identifier, "return", 1⟩ (some (.Literal (.Number 42)))] 0)], none⟩], []⟩
      = some (.ok (.Number 42),
        ⟨[⟨[("f", .Function "f" []
          [.Return ⟨.Identifier, "return", 1⟩ (some (.Literal (.Number 42)))] 0)], none⟩,
          ⟨[], some 0⟩], []⟩) := by
  exact (call_return_spec 4 (.Variable ⟨.Identifier, "f", 2⟩) ⟨.RightParen, ")", 2⟩ [] 0
    ⟨[⟨[("f", .Function "f" []
      [.Return ⟨.Identifier, "return", 1⟩ (some (.Literal (.Number 42)))] 0)], none⟩], []⟩
    ⟨[⟨[("f", .Function "f" []
      [.Return ⟨.Identifier, "return", 1⟩ (some (.Literal (.Number 42)))] 0)], none⟩], []⟩
    ⟨[⟨[("f", .Function "f" []
      [.Return ⟨.Identifier, "return", 1⟩ (some (.Literal (.Number 42)))] 0)], none⟩,
      ⟨[], some 0⟩], []⟩
    "f" [] [.Return ⟨.Identifier, "return", 1⟩ (some (.Literal (.Number 42)))] 0
    rfl rfl rfl).2.1 (.Number 42)
    ⟨[⟨[("f", .Function "f" []
      [.Return ⟨.Identifier, "return", 1⟩ (some (.Literal (.Number 42)))] 0)], none⟩,
      ⟨[], some 0⟩], []⟩
    rfl

/-- C8: a successful `assign` updates the binding in the first
(innermost) frame of the chain that already contains the name — that
frame already contained it, so no binding is created — leaves every
other frame and every other binding of that frame unchanged, and a
failing `assign` means no frame of the chain contains the name and
produces the undefined-variable error at the token line (the store is
returned unchanged in that case, since no update is built). -/
theorem assign_spec :
    ∀ (fuel : Nat) (st : Store) (addr : Nat) (tok : Token) (v : Value)
      (res : Except RuntimeError Store),
      Environment.assign fuel st addr tok v = some res →
      ((∀ st₁, res = .ok st₁ →
        ∃ (target : Nat) (env : Environment),
          FirstContaining st tok.lexeme addr target ∧
          st[target]? = some env ∧
          listContains tok.lexeme env.values = true ∧
          st₁ = st.set target { env with values := listInsert tok.lexeme v env.values } ∧
          (∀ b : Nat, b ≠ target → st₁[b]? = st[b]?) ∧
          (∀ k : String, k ≠ tok.lexeme →
            listGet k (listInsert tok.lexeme v env.values) = listGet k env.values))
        ∧ (∀ er, res = .error er →
          UnboundIn st tok.lexeme addr ∧
          er = .Error ("Undefined variable \x27" ++ tok.lexeme ++ "\x27") tok.line)) := by
  intro fuel
  induction fuel with
  | zero =>
    intro st addr tok v res h
    simp [Environment.assign] at h
  | succ fuel ih =>
    intro st addr tok v res h
    rw [Environment.assign] at h
    cases ha : st[addr]? with
    | none => rw [ha] at h; simp at h
    | some env =>
      simp only [ha] at h
      by_cases hc : listContains tok.lexeme env.values = true
      · rw [if_pos hc] at h
        simp only [Option.some.injEq] at h
        subst h
        constructor
        · intro st₁ hst₁
          simp only [Except.ok.injEq] at hst₁
          subst hst₁
          refine ⟨addr, env, .here addr env ha hc, ha, hc, rfl, ?_, ?_⟩
          · intro b hb
            exact List.getElem?_set_ne (Ne.symm hb)
          · intro k hk
            exact listGet_insert_ne k tok.lexeme v env.values hk
        · intro er her
          exact absurd her (by simp)
      · have hcf : listContains tok.lexeme env.values = false := by
          simpa using hc
        rw [if_neg hc] at h
        cases he : env.enclosing with
        | some parent =>
          simp only [he] at h
          have := ih st parent tok v res h
          constructor
          · intro st₁ hst₁
            obtain ⟨target, env₁, hfc, hget, hcont, hset, hframes, hkeys⟩ := this.1 st₁ hst₁
            exact ⟨target, env₁, .up addr env parent target ha hcf he hfc, hget, hcont,
              hset, hframes, hkeys⟩
          · intro er her
            obtain ⟨hub, hmsg⟩ := this.2 er her
            exact ⟨.step addr env parent ha hcf he hub, hmsg⟩
        | none =>
          simp only [he, Option.some.injEq] at h
          subst h
          constructor
          · intro st₁ hst₁
            exact absurd hst₁ (by simp)
          · intro er her
            simp only [Except.error.injEq] at her
            exact ⟨.root addr env ha hcf he, her.symm⟩

/-- C8 witness: assigning `x` from a child frame updates the parent
frame that holds `x`, leaving the sibling binding intact. -/
theorem assign_spec_witness :
    ∃ (target : Nat) (env : Environment),
      FirstContaining [⟨[("x", .Number 1)], none⟩, ⟨[("y", .Number 2)], some 0⟩] "x" 1 target ∧
      ([⟨[("x", .Number 1)], none⟩, ⟨[("y", .Number 2)], some 0⟩] : Store)[target]?
        = some env ∧
      listContains "x" env.values = true ∧
      ([⟨[("x", .Number 1)], none⟩, ⟨[("y", .Number 2)], some 0⟩] : Store).set 0
          ⟨[("x", .Nil)], none⟩
        = List.set [⟨[("x", .Number 1)], none⟩, ⟨[("y", .Number 2)], some 0⟩] target
          { env with values := listInsert "x" .Nil env.values } ∧
      (∀ b : Nat, b ≠ target →
        (([⟨[("x", .Number 1)], none⟩, ⟨[("y", .Number 2)], some 0⟩] : Store).set 0
          ⟨[("x", .Nil)], none⟩)[b]?
        = ([⟨[("x", .Number 1)], none⟩, ⟨[("y", .Number 2)], some 0⟩] : Store)[b]?) ∧
      (∀ k : String, k ≠ "x" →
        listGet k (listInsert "x" .Nil env.values) = listGet k env.values) := by
  have h := (assign_spec 2 [⟨[("x", .Number 1)], none⟩, ⟨[("y", .Number 2)], some 0⟩] 1
    ⟨.Identifier, "x", 3⟩ .Nil
    (.ok (([⟨[("x", .Number 1)], none⟩, ⟨[("y", .Number 2)], some 0⟩] : Store).set 0
      ⟨[("x", .Nil)], none⟩)) rfl).1 _ rfl
  obtain ⟨target, env, hfc, hget, hcont, hset, hframes, hkeys⟩ := h
  exact ⟨target, env, hfc, hget, hcont, hset, hframes, hkeys⟩

/-- C10: the expression-echo flag is passed unchanged into the taken
branch of an `If` and into the body (and next iteration) of a `While`,
a `Block` runs its statements through `execute_block` whatever the
flag is, and `execute_block` executes every statement with the flag
false; hence with the flag true at top level an expression statement
directly under an `If`/`While` echoes its value while one nested in a
`Block` does not. -/
theorem echo_flag_spec :
    (∀ (fuel : Nat) (c : Expr) (t : Stmt) (e : Option Stmt) (flag : Bool) (env : Nat)
        (s s₁ : InterpState) (cv : Value),
      evaluate fuel c env s = some (.ok cv, s₁) → is_truthy cv = true →
      execute_stmt (fuel + 1) (.If c t e) flag env s = execute_stmt fuel t flag env s₁)
    ∧ (∀ (fuel : Nat) (c : Expr) (t e : Stmt) (flag : Bool) (env : Nat)
        (s s₁ : InterpState) (cv : Value),
      evaluate fuel c env s = some (.ok cv, s₁) → is_truthy cv = false →
      execute_stmt (fuel + 1) (.If c t (some e)) flag env s = execute_stmt fuel e flag env s₁)
    ∧ (∀ (fuel : Nat) (c : Expr) (b : Stmt) (flag : Bool) (env : Nat) (s s₁ : InterpState)
        (cv : Value),
      evaluate fuel c env s = some (.ok cv, s₁) → is_truthy cv = true →
      execute_stmt (fuel + 1) (.While c b) flag env s =
        (match execute_stmt fuel b flag env s₁ with
          | none => none
          | some (.error er, s₂) => some (.error er, s₂)
          | some (.ok _, s₂) => execute_stmt fuel (.While c b) flag env s₂))
    ∧ (∀ (fuel : Nat) (stmts : List Stmt) (flag : Bool) (env : Nat) (s : InterpState),
      execute_stmt (fuel + 1) (.Block stmts) flag env s =
        execute_block fuel stmts s.store.length
          { s with store := s.store ++ [Environment.new_with_enclosing env] })
    ∧ (∀ (fuel : Nat) (stmt : Stmt) (rest : List Stmt) (env : Nat) (s : InterpState),
      execute_block (fuel + 1) (stmt :: rest) env s =
        (match execute_stmt fuel stmt false env s with
          | none => none
          | some (.error er, s₁) => some (.error er, s₁)
          | some (.ok _, s₁) => execute_block fuel rest env s₁)) := by
  refine ⟨?_, ?_, ?_, fun fuel stmts flag env s => rfl, fun fuel stmt rest env s => rfl⟩
  · intro fuel c t e flag env s s₁ cv h₁ htr
    rw [execute_stmt]
    simp [h₁, htr]
  · intro fuel c t e flag env s s₁ cv h₁ htr
    rw [execute_stmt]
    simp [h₁, htr]
  · intro fuel c b flag env s s₁ cv h₁ htr
    rw [execute_stmt]
    simp [h₁, htr]

/-- C10 witness: with the echo flag true, `if (true) 5;` prints the
value 5 while `{ 5; }` prints nothing. -/
theorem echo_flag_spec_witness :
    execute_stmt 3 (.If (.Literal (.Boolean true)) (.Expression (.Literal (.Number 5))) none)
        true 0 ⟨[Environment.new], []⟩
      = some (.ok (), ⟨[Environment.new], [.Number 5]⟩)
    ∧ execute_stmt 4 (.Block [.Expression (.Literal (.Number 5))]) true 0
        ⟨[Environment.new], []⟩
      = some (.ok (), ⟨[Environment.new, ⟨[], some 0⟩], []⟩) := by
  constructor
  · rw [echo_flag_spec.1 2 (.Literal (.Boolean true)) (.Expression (.Literal (.Number 5)))
      none true 0 _ _ (.Boolean true) rfl rfl]
    rfl
  · rw [echo_flag_spec.2.2.2.1 3 [.Expression (.Literal (.Number 5))] true 0
      ⟨[Environment.new], []⟩]
    rfl

end Lox
